import Mathlib

set_option linter.unusedVariables false

/-!
# Verification of the CarouselAI generation-and-export orchestration layer

Shallow embedding of the asynchronous orchestration core of the
`carouselai-vercel` repository:

* the slide store and its ID-based reconciliation
  (`src/components/Workspace.tsx`: `slidesRef`, `handleGenerateImage`,
  `handleBatchGenerateImages`, `handleDeleteSlide`);
* the model-fallback policies of the Gemini service
  (`src/services/geminiService.ts`: `generateCarouselContent`,
  `refineCarouselContent`, `generateSlideImage`, `stylizeImage`, `editImage`);
* the export pipeline (`waitForImages`, `captureSlide`,
  `handleDownloadCarousel`).

External collaborators (the Gemini backend, the DOM renderer, the fallible
image extraction) are abstracted as oracle functions supplied by the caller;
everything the orchestration layer itself does is embedded from the source.
-/

/-- The slide record (`src/types.ts`, interface `Slide`), restricted to the
fields that the orchestration layer reads or writes.  Identity is `id`;
`imageScale`/`overlayImage` are optional exactly where the TypeScript fields
are optional.  `imageScale = some 0` models the JavaScript value `0`, which is
falsy in the `slide.imageScale || default` idiom. -/
structure Slide where
  id : String
  content : String
  showImage : Bool := false
  imageUrl : Option String := none
  imageScale : Option Nat := none
  overlayImage : Option Bool := none
deriving Repr, DecidableEq

/-- The ids present in a store snapshot, in display order. -/
def slideIds (slides : List Slide) : List String :=
  slides.map (fun s => s.id)

/-- Lookup `slides.find(s => s.id === id)`: the slide currently stored under `id`. -/
def getSlide (id : String) (slides : List Slide) : Option Slide :=
  slides.find? (fun s => s.id = id)

/-- The `findIndex` / copy / `set`-at-index idiom used by every per-ID store
write in `Workspace.tsx` (`const i = arr.findIndex(s => s.id === id);
if (i === -1) return; copy[i] = f(arr[i])`): update the first slide with the
given id, leave the store unchanged when the id is absent. -/
def updateFirstById (id : String) (f : Slide → Slide) : List Slide → List Slide
  | [] => []
  | s :: rest =>
    if s.id = id then f s :: rest else s :: updateFirstById id f rest

/-- The slide update applied when an image generation completes
(`Workspace.tsx:705-711` and `849-855`):
`{ ...slide, showImage: true, imageUrl: img,
   imageScale: slide.imageScale || (isStoryteller ? 45 : 50),
   overlayImage: isStoryteller ? true : undefined }`. -/
def genImageUpdate (isStoryteller : Bool) (img : String) (s : Slide) : Slide :=
  { s with
      showImage := true
      imageUrl := some img
      imageScale :=
        some (match s.imageScale with
          | some n => if n = 0 then (if isStoryteller then 45 else 50) else n
          | none => if isStoryteller then 45 else 50)
      overlayImage := if isStoryteller then some true else none }

/-- Completion of a single-slide generation task
(`Workspace.tsx:678-724`, `handleGenerateImage`): the callback re-resolves the
captured `slideId` against the CURRENT store (`slidesRef.current`), bails out
if the slide was deleted in flight (`slideIndex === -1`), and otherwise
rewrites only that slide. -/
def handleGenerateImageComplete (isStoryteller : Bool) (slideId img : String)
    (current : List Slide) : List Slide :=
  updateFirstById slideId (genImageUpdate isStoryteller img) current

/-- Handler `handleDeleteSlide` (`Workspace.tsx:274-280`): no-op on a single-slide
collection; otherwise remove every slide whose id is the active id and make
the first remaining slide active.  When the filtered collection is empty the
source would fault reading `newSlides[0].id`; under the id-uniqueness
invariant that branch is unreachable, and the model keeps the old active id
there to stay total. -/
def handleDeleteSlide (slides : List Slide) (activeSlideId : String) :
    List Slide × String :=
  if slides.length ≤ 1 then (slides, activeSlideId)
  else
    let newSlides := slides.filter (fun s => s.id ≠ activeSlideId)
    match newSlides.head? with
    | some s => (newSlides, s.id)
    | none => (newSlides, activeSlideId)

/-! ## Batch image generation (`Workspace.tsx:800-871`) -/

/-- Outcome of one backend image-generation attempt as seen by a batch member
promise: `generateSlideImage` either resolves with a base64 image or throws. -/
inductive GenOutcome where
  | ok (img : String)
  | err
deriving Repr, DecidableEq

/-- What one batch member promise resolves with (`Workspace.tsx:816-831`):
`{ slideId, success }` or `{ slideId, success: true, imageUrl }`.  Each member
has its own `try`/`catch`, so a member never rejects. -/
structure BatchItemResult where
  slideId : String
  success : Bool
  imageUrl : Option String
deriving Repr, DecidableEq

/-- One batch member promise (`Workspace.tsx:816-831`): look the slide up in
the BATCH-START snapshot to build the prompt; a missing id short-circuits to
failure; otherwise the backend attempt (abstracted by `oracle`) decides
success or failure. -/
def runBatchItem (snapshot : List Slide) (oracle : String → GenOutcome)
    (slideId : String) : BatchItemResult :=
  match getSlide slideId snapshot with
  | none => ⟨slideId, false, none⟩
  | some _ =>
    match oracle slideId with
    | .ok img => ⟨slideId, true, some img⟩
    | .err => ⟨slideId, false, none⟩

/-- Per-slide generation status recorded in `slideGenerationStatus`. -/
inductive GenStatus where
  | idle
  | generating
  | success
  | error
deriving Repr, DecidableEq

/-- The status record built in the results loop (`Workspace.tsx:841-859`):
`newStatus[slideId] = success ? 'success' : 'error'`, one entry per settled
member (every member fulfills, so the `status === 'fulfilled'` test always
passes). -/
def batchStatus (results : List BatchItemResult) : List (String × GenStatus) :=
  results.map (fun r => (r.slideId, if r.success then .success else .error))

/-- The slide write of one settled member in the results loop
(`Workspace.tsx:846-857`): successful members with an image update their slide
in the accumulated array, others leave it untouched. -/
def applyBatchResult (isStoryteller : Bool) (acc : List Slide)
    (r : BatchItemResult) : List Slide :=
  if r.success then
    match r.imageUrl with
    | some img => updateFirstById r.slideId (genImageUpdate isStoryteller img) acc
    | none => acc
  else acc

/-- The `results.forEach` loop folded over the accumulated slide array. -/
def applyBatchResults (isStoryteller : Bool) (acc : List Slide) :
    List BatchItemResult → List Slide
  | [] => acc
  | r :: rest => applyBatchResults isStoryteller (applyBatchResult isStoryteller acc r) rest

/-- Handler `handleBatchGenerateImages` (`Workspace.tsx:800-871`), as a function of the
store snapshot captured when the handler was created.  NOTE (faithful to the
source): line 837 starts the results loop from `const newSlides = [...slides]`
— the closure-captured BATCH-START snapshot, not `slidesRef.current` — and
line 861 calls `onUpdateSlides(newSlides)`, replacing the whole store with it.
Returns the store written back and the status record. -/
def handleBatchGenerateImages (isStoryteller : Bool) (snapshot : List Slide)
    (selected : List String) (oracle : String → GenOutcome) :
    List Slide × List (String × GenStatus) :=
  let results := selected.map (runBatchItem snapshot oracle)
  (applyBatchResults isStoryteller snapshot results, batchStatus results)

/-! ## Interleaving store edits with task completions

The store lives in the parent component; every write goes through
`onUpdateSlides`.  In the browser's single-threaded model each continuation
(user edit handler, generation completion callback) runs to completion before
the next one observes the store, so an execution is a sequence of atomic store
events.  A batch completion's write is `handleBatchGenerateImages` applied to
its start snapshot (see above), independent of the store at completion time;
a single-slide completion re-reads the current store through `slidesRef`. -/

/-- One atomic store event. -/
inductive StoreEvent where
  /-- The user deletes the active slide (`handleDeleteSlide`). -/
  | userDelete (activeId : String)
  /-- A single-slide generation completes (`handleGenerateImage`): transforms
  the completion-time store per captured id. -/
  | singleComplete (slideId img : String)
  /-- A batch generation completes (`handleBatchGenerateImages`): writes back
  the array it built from its start snapshot, replacing the store. -/
  | batchComplete (snapshot : List Slide) (selected : List String)
      (oracle : String → GenOutcome)

/-- Effect of one event on the store. -/
def applyEvent (isStoryteller : Bool) (store : List Slide) :
    StoreEvent → List Slide
  | .userDelete activeId => (handleDeleteSlide store activeId).1
  | .singleComplete slideId img =>
      handleGenerateImageComplete isStoryteller slideId img store
  | .batchComplete snapshot selected oracle =>
      (handleBatchGenerateImages isStoryteller snapshot selected oracle).1

/-- Run a sequence of store events. -/
def runEvents (isStoryteller : Bool) (store : List Slide) :
    List StoreEvent → List Slide
  | [] => store
  | e :: rest => runEvents isStoryteller (applyEvent isStoryteller store e) rest

/-! ## Model fallback policies (`src/services/geminiService.ts`) -/

/-- Model name constants (`geminiService.ts:73-81`). -/
def TEXT_MODEL_PRO : String := "gemini-3-pro-preview"

/-- Mid-tier text model. -/
def TEXT_MODEL_PRO_2_5 : String := "gemini-2.5-pro-preview-02-05"

/-- Fast text model. -/
def TEXT_MODEL_FLASH : String := "gemini-2.5-flash"

/-- Pro image model. -/
def IMAGE_MODEL_PRO : String := "gemini-3-pro-image-preview"

/-- Flash image model. -/
def IMAGE_MODEL_FLASH : String := "gemini-2.5-flash-image"

/-- The duck-typed `error.status` field of a thrown request error: the Gemini
SDK surfaces either the string `'PERMISSION_DENIED'`, a numeric HTTP status,
or nothing. -/
inductive ErrStatus where
  | permissionDenied
  | code (n : Nat)
  | missing
deriving Repr, DecidableEq

/-- A classified request error.  `msgHas403` models
`error.message?.includes('403')` on the error's message string. -/
structure RequestError where
  status : ErrStatus
  msgHas403 : Bool
deriving Repr, DecidableEq

/-- The fallback guard of the image operations (`geminiService.ts:658`, `756`,
`829`): `error?.status === 'PERMISSION_DENIED' || error?.status === 403 ||
error.message?.includes('403')`. -/
def isAuthError (e : RequestError) : Bool :=
  e.status = .permissionDenied || e.status = .code 403 || e.msgHas403

/-- Result of one attempt of an image operation against a given model: the
`generate(m)` call followed by `extractImage` either yields a base64 data URI
or throws a classified error.  The backend is abstracted as an oracle from
model name to outcome (the calls are idempotent, §4.2 of the spec). -/
inductive ImgResult where
  | ok (img : String)
  | fail (e : RequestError)
deriving Repr, DecidableEq

/-- Operation `generateSlideImage` (`geminiService.ts:622-671`), instrumented with the
list of models attempted in order.  `try { generate(m); extract }` — on error,
fall back to the Flash model once, and only when the caller passed the Pro
model and the error satisfies the 403/permission guard; any other error is
rethrown unchanged with no second attempt. -/
def generateSlideImage (attempt : String → ImgResult) (modelName : String) :
    ImgResult × List String :=
  match attempt modelName with
  | .ok img => (.ok img, [modelName])
  | .fail e =>
    if modelName = IMAGE_MODEL_PRO ∧ isAuthError e then
      match attempt IMAGE_MODEL_FLASH with
      | .ok img => (.ok img, [modelName, IMAGE_MODEL_FLASH])
      | .fail fallbackError => (.fail fallbackError, [modelName, IMAGE_MODEL_FLASH])
    else (.fail e, [modelName])

/-- Operation `stylizeImage` (`geminiService.ts:713-769`): identical control flow to
`generateSlideImage` — permission-gated single fallback Pro → Flash. -/
def stylizeImage (attempt : String → ImgResult) (modelName : String) :
    ImgResult × List String :=
  match attempt modelName with
  | .ok img => (.ok img, [modelName])
  | .fail e =>
    if modelName = IMAGE_MODEL_PRO ∧ isAuthError e then
      match attempt IMAGE_MODEL_FLASH with
      | .ok img => (.ok img, [modelName, IMAGE_MODEL_FLASH])
      | .fail fallbackError => (.fail fallbackError, [modelName, IMAGE_MODEL_FLASH])
    else (.fail e, [modelName])

/-- Operation `editImage` (`geminiService.ts:789-842`): identical control flow to
`generateSlideImage` — permission-gated single fallback Pro → Flash. -/
def editImage (attempt : String → ImgResult) (modelName : String) :
    ImgResult × List String :=
  match attempt modelName with
  | .ok img => (.ok img, [modelName])
  | .fail e =>
    if modelName = IMAGE_MODEL_PRO ∧ isAuthError e then
      match attempt IMAGE_MODEL_FLASH with
      | .ok img => (.ok img, [modelName, IMAGE_MODEL_FLASH])
      | .fail fallbackError => (.fail fallbackError, [modelName, IMAGE_MODEL_FLASH])
    else (.fail e, [modelName])

/-- Result of one attempt of a text operation against a given model:
`generate(m)` followed by `parseResponse` either yields a payload (slides
array) or throws a classified error. -/
inductive TextResult (α : Type) where
  | ok (v : α)
  | fail (e : RequestError)
deriving Repr, DecidableEq

/-- Position of a model in the text chain, used as termination measure for the
recursive fallback. -/
def textModelRank (m : String) : Nat :=
  if m = TEXT_MODEL_PRO then 2
  else if m = TEXT_MODEL_PRO_2_5 then 1
  else 0

/-- Operation `generateCarouselContent` (`geminiService.ts:398-426`), instrumented with
the list of models attempted in order: try the given model; on ANY failure,
pick the next model of the chain (`if modelName === TEXT_MODEL_PRO → PRO_2_5;
else if PRO_2_5 → FLASH; else null`) and recurse on it; with no fallback model
the function rethrows its own error (`throw error`).  The
`catch (fallbackError) { throw fallbackError }` around the recursive call is
an identity rethrow. -/
def generateCarouselContent {α : Type} (attempt : String → TextResult α)
    (modelName : String) : TextResult α × List String :=
  match attempt modelName with
  | .ok v => (.ok v, [modelName])
  | .fail e =>
    if hm : modelName = TEXT_MODEL_PRO then
      let r := generateCarouselContent attempt TEXT_MODEL_PRO_2_5
      (r.1, modelName :: r.2)
    else if hm2 : modelName = TEXT_MODEL_PRO_2_5 then
      let r := generateCarouselContent attempt TEXT_MODEL_FLASH
      (r.1, modelName :: r.2)
    else (.fail e, [modelName])
termination_by textModelRank modelName
decreasing_by
· subst hm
  decide
· subst hm2
  decide

/-- Operation `refineCarouselContent` (`geminiService.ts:577-597`): the same
unconditional chain as `generateCarouselContent` (the source duplicates the
fallback logic with its own attempt closure). -/
def refineCarouselContent {α : Type} (attempt : String → TextResult α)
    (modelName : String) : TextResult α × List String :=
  match attempt modelName with
  | .ok v => (.ok v, [modelName])
  | .fail e =>
    if hm : modelName = TEXT_MODEL_PRO then
      let r := refineCarouselContent attempt TEXT_MODEL_PRO_2_5
      (r.1, modelName :: r.2)
    else if hm2 : modelName = TEXT_MODEL_PRO_2_5 then
      let r := refineCarouselContent attempt TEXT_MODEL_FLASH
      (r.1, modelName :: r.2)
    else (.fail e, [modelName])
termination_by textModelRank modelName
decreasing_by
· subst hm
  decide
· subst hm2
  decide

/-! ## Capture pipeline and export (`Workspace.tsx:900-1003`) -/

/-- An asset's settle time: `some t` if its load (or error) event fires at
time `t` (an already-complete image settles at time 0), `none` if it never
fires either event. -/
def SettleTime : Type := Option Nat

/-- The time at which the `loaded >= total` counter of `waitForImages`
reaches the total: the latest settle time, or `none` when some asset never
settles. -/
def allSettledTime : List (Option Nat) → Option Nat
  | [] => some 0
  | a :: rest =>
    match a, allSettledTime rest with
    | some t, some m => some (max t m)
    | _, _ => none

/-- Wait `waitForImages` (`Workspace.tsx:900-929`), as the time at which its
promise resolves.  No images: resolve immediately.  Otherwise the promise
resolves at the first of "all assets settled" and the safety timeout
`setTimeout(resolve, 3000)`. -/
def waitForImagesTime (assets : List (Option Nat)) : Nat :=
  if assets.isEmpty then 0
  else
    match allSettledTime assets with
    | some t => min t 3000
    | none => 3000

/-- Capture `captureSlide` (`Workspace.tsx:935-959`): await `waitForImages`, then call
the renderer (`htmlToImage.toPng` + blob conversion, abstracted as `render`);
a renderer throw is caught and turned into `null`.  Returns the time at which
the wait resolved together with the capture result. -/
def captureSlide (assets : List (Option Nat)) (render : Option String) :
    Nat × Option String :=
  (waitForImagesTime assets, render)

/-- Name `slide-${i + 1}.png`, the archive entry name for 1-based position `i`. -/
def slideFileName (i : Nat) : String :=
  "slide-" ++ toString i ++ ".png"

/-- One capture performed during a full-sequence export, with the interval it
occupied on the timeline. -/
structure CaptureEvent where
  slideId : String
  startTime : Nat
  endTime : Nat
deriving Repr, DecidableEq

/-- What a full-sequence export produced. -/
structure ExportResult where
  /-- Archive entries (`zip.file(name, blob)`) in the order they were added. -/
  archive : List (String × String)
  /-- The capture intervals, in the order the captures ran. -/
  events : List CaptureEvent
  /-- The active slide after the handler finished. -/
  finalActiveId : String
  /-- Whether `zip.generateAsync` + `saveAs` ran (they always do). -/
  packaged : Bool
deriving Repr, DecidableEq

/-- The body of the `for` loop of `handleDownloadCarousel`
(`Workspace.tsx:983-994`), iterated sequentially: set the slide active, await
the 300ms render settle, await `captureSlide` (whose latency per slide is
given by `latency`), and add a `slide-${i+1}.png` entry when the capture
returned a blob.  The loop state is (clock, activeId, archive, events);
each capture starts only after the previous one finished because every step
is awaited. -/
def exportLoop (latency : String → Nat) (capture : String → Option String) :
    List (Nat × Slide) → Nat × String × List (String × String) × List CaptureEvent →
    Nat × String × List (String × String) × List CaptureEvent
  | [], st => st
  | (i, slide) :: rest, (clock, _, archive, events) =>
    let startTime := clock + 300
    let endTime := startTime + latency slide.id
    let archive' :=
      match capture slide.id with
      | some blob => archive ++ [(slideFileName (i + 1), blob)]
      | none => archive
    exportLoop latency capture rest
      (endTime, slide.id, archive', events ++ [⟨slide.id, startTime, endTime⟩])

/-- Handler `handleDownloadCarousel` (`Workspace.tsx:976-1003`): remember the active
slide, run the sequential capture loop over the slides in display order,
restore the original active slide, then package the archive
(`zip.generateAsync` + `saveAs`). -/
def handleDownloadCarousel (slides : List Slide) (activeSlideId : String)
    (latency : String → Nat) (capture : String → Option String) : ExportResult :=
  let originalActiveId := activeSlideId
  let st := exportLoop latency capture slides.enum (0, activeSlideId, [], [])
  { archive := st.2.2.1
    events := st.2.2.2
    finalActiveId := originalActiveId
    packaged := true }

/-! ## Store reconciliation lemmas -/

theorem genImageUpdate_id (isStoryteller : Bool) (img : String) (s : Slide) :
    (genImageUpdate isStoryteller img s).id = s.id := rfl

theorem genImageUpdate_imageUrl (isStoryteller : Bool) (img : String) (s : Slide) :
    (genImageUpdate isStoryteller img s).imageUrl = some img := rfl

/-- Looking up the updated id after `updateFirstById` sees the updated slide,
provided the update preserves ids. -/
theorem getSlide_updateFirstById_self (id : String) (f : Slide → Slide)
    (hf : ∀ s, (f s).id = s.id) (l : List Slide) :
    getSlide id (updateFirstById id f l) = (getSlide id l).map f := by
  induction l with
  | nil => rfl
  | cons s rest ih =>
    by_cases hs : s.id = id
    · rw [updateFirstById, if_pos hs, getSlide,
        List.find?_cons_of_pos _ (by simp [hf, hs]), getSlide,
        List.find?_cons_of_pos _ (by simp [hs]), Option.map_some']
    · rw [updateFirstById, if_neg hs, getSlide,
        List.find?_cons_of_neg _ (by simp [hs]), getSlide,
        List.find?_cons_of_neg _ (by simp [hs])]
      exact ih

/-- Looking up a different id after `updateFirstById` sees the old store,
provided the update preserves ids. -/
theorem getSlide_updateFirstById_ne (id tgt : String) (f : Slide → Slide)
    (hf : ∀ s, (f s).id = s.id) (hne : tgt ≠ id) (l : List Slide) :
    getSlide id (updateFirstById tgt f l) = getSlide id l := by
  induction l with
  | nil => rfl
  | cons s rest ih =>
    by_cases hs : s.id = tgt
    · have h1 : ¬ (f s).id = id := by rw [hf, hs]; exact hne
      have h2 : ¬ s.id = id := by rw [hs]; exact hne
      rw [updateFirstById, if_pos hs, getSlide,
        List.find?_cons_of_neg _ (by simp [h1]), getSlide,
        List.find?_cons_of_neg _ (by simp [h2])]
    · by_cases hsid : s.id = id
      · rw [updateFirstById, if_neg hs, getSlide,
          List.find?_cons_of_pos _ (by simp [hsid]), getSlide,
          List.find?_cons_of_pos _ (by simp [hsid])]
      · rw [updateFirstById, if_neg hs, getSlide,
          List.find?_cons_of_neg _ (by simp [hsid]), getSlide,
          List.find?_cons_of_neg _ (by simp [hsid])]
        exact ih

/-- C2: Last writer wins.  Two single-slide generation completions for the
same slide id, completing in order A then B, leave the store holding B's
image, no matter what either task read when it STARTED: the completion
callback (`Workspace.tsx:693-712`) takes only the captured `slideId` into the
current store, so the start order cannot influence the write. -/
theorem lastWriterWins (isStoryteller : Bool) (cur : List Slide)
    (slideId imgA imgB : String) (hmem : (getSlide slideId cur).isSome) :
    ∃ s, getSlide slideId
        (handleGenerateImageComplete isStoryteller slideId imgB
          (handleGenerateImageComplete isStoryteller slideId imgA cur)) = some s ∧
      s.imageUrl = some imgB := by
  obtain ⟨s0, hs0⟩ := Option.isSome_iff_exists.mp hmem
  refine ⟨genImageUpdate isStoryteller imgB (genImageUpdate isStoryteller imgA s0),
    ?_, genImageUpdate_imageUrl ..⟩
  unfold handleGenerateImageComplete
  rw [getSlide_updateFirstById_self slideId (genImageUpdate isStoryteller imgB)
      (fun s => rfl),
    getSlide_updateFirstById_self slideId (genImageUpdate isStoryteller imgA)
      (fun s => rfl), hs0]
  rfl

/-- Witness for `lastWriterWins` at a concrete two-slide store. -/
theorem lastWriterWins_witness :
    ∃ s, getSlide "a"
        (handleGenerateImageComplete false "a" "second"
          (handleGenerateImageComplete false "a" "first"
            [{ id := "a", content := "alpha" }, { id := "b", content := "beta" }]))
          = some s ∧
      s.imageUrl = some "second" :=
  lastWriterWins false
    [{ id := "a", content := "alpha" }, { id := "b", content := "beta" }]
    "a" "first" "second" (by decide)

/-! ## Deletion safety -/

theorem filter_ne_of_not_mem (a : String) (l : List Slide)
    (h : a ∉ slideIds l) : l.filter (fun s => s.id ≠ a) = l := by
  induction l with
  | nil => rfl
  | cons s rest ih =>
    simp only [slideIds, List.map_cons, List.mem_cons, not_or] at h
    rw [List.filter_cons_of_pos (by simp; exact fun hc => h.1 hc.symm)]
    rw [ih (by simpa [slideIds] using h.2)]

theorem length_filter_ne (a : String) (l : List Slide)
    (hnd : (slideIds l).Nodup) (hmem : a ∈ slideIds l) :
    (l.filter (fun s => s.id ≠ a)).length + 1 = l.length := by
  induction l with
  | nil => simp [slideIds] at hmem
  | cons s rest ih =>
    simp only [slideIds, List.map_cons, List.nodup_cons, List.mem_cons] at hnd hmem
    by_cases hsa : s.id = a
    · rw [List.filter_cons_of_neg (by simp [hsa])]
      rw [filter_ne_of_not_mem a rest (by rw [← hsa]; exact hnd.1)]
      simp
    · have hmem' : a ∈ slideIds rest :=
        hmem.resolve_left (fun h => hsa h.symm)
      rw [List.filter_cons_of_pos (by simp [hsa])]
      have := ih hnd.2 hmem'
      simp only [List.length_cons]
      omega

theorem not_mem_filter_ne (a : String) (l : List Slide) :
    a ∉ slideIds (l.filter (fun s => s.id ≠ a)) := by
  simp only [slideIds, List.mem_map, List.mem_filter]
  rintro ⟨s, ⟨-, hne⟩, hid⟩
  simp [hid] at hne

/-- C10: `handleDeleteSlide` is a no-op on a one-slide collection; on a larger
collection it removes exactly the active slide (the active id disappears,
every other slide survives, exactly one slide is removed), the collection is
never left empty, and the new active id is the first remaining slide's id,
which exists in the collection. -/
theorem deleteSlideSafe (slides : List Slide) (activeSlideId : String)
    (hnd : (slideIds slides).Nodup) (hmem : activeSlideId ∈ slideIds slides) :
    (slides.length ≤ 1 →
      handleDeleteSlide slides activeSlideId = (slides, activeSlideId)) ∧
    (1 < slides.length →
      (handleDeleteSlide slides activeSlideId).1
          = slides.filter (fun s => s.id ≠ activeSlideId) ∧
      activeSlideId ∉ slideIds (handleDeleteSlide slides activeSlideId).1 ∧
      (∀ s ∈ slides, s.id ≠ activeSlideId →
        s ∈ (handleDeleteSlide slides activeSlideId).1) ∧
      (handleDeleteSlide slides activeSlideId).1.length + 1 = slides.length ∧
      (handleDeleteSlide slides activeSlideId).1 ≠ [] ∧
      (∀ s, (handleDeleteSlide slides activeSlideId).1.head? = some s →
        (handleDeleteSlide slides activeSlideId).2 = s.id) ∧
      (handleDeleteSlide slides activeSlideId).2
          ∈ slideIds (handleDeleteSlide slides activeSlideId).1) := by
  constructor
  · intro hle
    rw [handleDeleteSlide, if_pos hle]
  · intro hlt
    have hlen : (slides.filter (fun s => s.id ≠ activeSlideId)).length + 1
        = slides.length := length_filter_ne activeSlideId slides hnd hmem
    have hne : slides.filter (fun s => s.id ≠ activeSlideId) ≠ [] := by
      intro hempty
      rw [hempty] at hlen
      simp at hlen
      omega
    obtain ⟨hd, tl, hcons⟩ := List.exists_cons_of_ne_nil hne
    have hdel : handleDeleteSlide slides activeSlideId
        = (slides.filter (fun s => s.id ≠ activeSlideId), hd.id) := by
      rw [handleDeleteSlide, if_neg (by omega)]
      simp only [hcons, List.head?_cons]
    refine ⟨by rw [hdel], ?_, ?_, ?_, ?_, ?_, ?_⟩
    · rw [hdel]
      exact not_mem_filter_ne activeSlideId slides
    · intro s hs hsne
      rw [hdel]
      exact List.mem_filter.mpr ⟨hs, by simp [hsne]⟩
    · rw [hdel]
      exact hlen
    · rw [hdel]
      exact hne
    · intro s hs
      rw [hdel] at hs ⊢
      simp only [hcons, List.head?_cons, Option.some.injEq] at hs
      simp [← hs]
    · rw [hdel]
      have hdmem : hd ∈ slides.filter (fun s => s.id ≠ activeSlideId) := by
        rw [hcons]
        exact List.mem_cons_self _ _
      obtain ⟨hmem1, hmem2⟩ := List.mem_filter.mp hdmem
      simp only [slideIds, List.mem_map]
      exact ⟨hd, List.mem_filter.mpr ⟨hmem1, hmem2⟩, rfl⟩

/-- Witness for `deleteSlideSafe` on a concrete two-slide store. -/
theorem deleteSlideSafe_witness :
    handleDeleteSlide
        [{ id := "a", content := "alpha" }, { id := "b", content := "beta" }] "a"
      = ([{ id := "b", content := "beta" }], "b") := by
  have h := deleteSlideSafe
    [{ id := "a", content := "alpha" }, { id := "b", content := "beta" }] "a"
    (by decide) (by decide)
  have h2 := (h.2 (by decide)).1
  have h6 := (h.2 (by decide)).2.2.2.2.2.1
  have harr : ([{ id := "a", content := "alpha" },
      { id := "b", content := "beta" }] : List Slide).filter
        (fun s => s.id ≠ "a") = [{ id := "b", content := "beta" }] := by decide
  rw [harr] at h2
  have hsnd := h6 { id := "b", content := "beta" } (by rw [h2]; rfl)
  exact Prod.ext h2 hsnd

/-! ## Reconciliation across interleavings -/

/-- A single-slide completion whose target was deleted in flight leaves the
store without that id (the not-found check of `handleGenerateImage`
discards the result against the CURRENT store). -/
theorem singleCompleteNoResurrection (isStoryteller : Bool) (slideId img : String)
    (current : List Slide) (h : slideId ∉ slideIds current) :
    slideIds (handleGenerateImageComplete isStoryteller slideId img current)
      = slideIds current := by
  unfold handleGenerateImageComplete
  induction current with
  | nil => rfl
  | cons s rest ih =>
    simp only [slideIds, List.map_cons, List.mem_cons, not_or] at h
    rw [updateFirstById, if_neg (fun hc => h.1 hc.symm)]
    exact congrArg (fun l => s.id :: l) (ih h.2)

/-- Witness for `singleCompleteNoResurrection` on a concrete store. -/
theorem singleCompleteNoResurrection_witness :
    slideIds (handleGenerateImageComplete false "a" "img"
        [{ id := "b", content := "beta" }])
      = slideIds [{ id := "b", content := "beta" }] :=
  singleCompleteNoResurrection false "a" "img"
    [{ id := "b", content := "beta" }] (by decide)

/-- C1 fails on the code: in the interleaving "batch over slide `a` starts on
store `[a, b]`; the user deletes slide `a` (store becomes `[b]`, `a`'s id is
gone); the batch completes successfully", the batch completion writes back the
array it built from its START snapshot (`Workspace.tsx:837` uses the closure
`slides`, `:861` replaces the store with it), so the deleted id `a` is back in
the store — the write is an overwrite with a task-start copy, not a per-ID
transform of the completion-time collection.  The single-slide path
(`handleGenerateImage`) in the same interleaving leaves `a` deleted. -/
theorem batchCompleteResurrectsDeletedSlide :
    ("a" ∉ slideIds
        ((handleDeleteSlide
          [{ id := "a", content := "alpha" }, { id := "b", content := "beta" }]
          "a").1)) ∧
    ("a" ∈ slideIds
        (runEvents false
          [{ id := "a", content := "alpha" }, { id := "b", content := "beta" }]
          [.userDelete "a",
           .batchComplete
             [{ id := "a", content := "alpha" }, { id := "b", content := "beta" }]
             ["a"] (fun _ => .ok "img")])) ∧
    ("a" ∉ slideIds
        (runEvents false
          [{ id := "a", content := "alpha" }, { id := "b", content := "beta" }]
          [.userDelete "a", .singleComplete "a" "img"])) := by
  refine ⟨by decide, by decide, by decide⟩

/-! ## Batch independence -/

theorem runBatchItem_slideId (snapshot : List Slide)
    (oracle : String → GenOutcome) (slideId : String) :
    (runBatchItem snapshot oracle slideId).slideId = slideId := by
  unfold runBatchItem
  cases getSlide slideId snapshot with
  | none => rfl
  | some s =>
    cases oracle slideId with
    | ok img => rfl
    | err => rfl

theorem runBatchItem_ok (snapshot : List Slide) (oracle : String → GenOutcome)
    (slideId img : String) (hp : (getSlide slideId snapshot).isSome)
    (ho : oracle slideId = .ok img) :
    runBatchItem snapshot oracle slideId = ⟨slideId, true, some img⟩ := by
  obtain ⟨s, hs⟩ := Option.isSome_iff_exists.mp hp
  unfold runBatchItem
  rw [hs, ho]

theorem runBatchItem_err (snapshot : List Slide) (oracle : String → GenOutcome)
    (slideId : String) (ho : oracle slideId = .err) :
    runBatchItem snapshot oracle slideId = ⟨slideId, false, none⟩ := by
  unfold runBatchItem
  cases hs : getSlide slideId snapshot with
  | none => rfl
  | some s => rw [ho]

theorem getSlide_applyBatchResult_ne (isStoryteller : Bool) (acc : List Slide)
    (r : BatchItemResult) (id : String) (h : r.slideId ≠ id) :
    getSlide id (applyBatchResult isStoryteller acc r) = getSlide id acc := by
  unfold applyBatchResult
  cases hrs : r.success with
  | false => simp
  | true =>
    cases hru : r.imageUrl with
    | none => simp
    | some img =>
      simp only [if_true]
      exact getSlide_updateFirstById_ne id r.slideId
        (genImageUpdate isStoryteller img) (fun s => rfl) h acc

theorem getSlide_applyBatchResults_not_mem (isStoryteller : Bool)
    (results : List BatchItemResult) (acc : List Slide) (id : String)
    (h : ∀ r ∈ results, r.slideId ≠ id) :
    getSlide id (applyBatchResults isStoryteller acc results) = getSlide id acc := by
  induction results generalizing acc with
  | nil => rfl
  | cons r rest ih =>
    rw [applyBatchResults, ih _ (fun r' hr' => h r' (List.mem_cons_of_mem r hr')),
      getSlide_applyBatchResult_ne isStoryteller acc r id
        (h r (List.mem_cons_self r rest))]

theorem getSlide_applyBatchResults_mem (isStoryteller : Bool)
    (results : List BatchItemResult) (acc : List Slide) (id img : String)
    (hnd : (results.map (fun r => r.slideId)).Nodup)
    (hr : BatchItemResult.mk id true (some img) ∈ results) :
    getSlide id (applyBatchResults isStoryteller acc results)
      = (getSlide id acc).map (genImageUpdate isStoryteller img) := by
  induction results generalizing acc with
  | nil => cases hr
  | cons r rest ih =>
    simp only [List.map_cons, List.nodup_cons] at hnd
    rcases List.mem_cons.mp hr with heq | hmem'
    · have hnotin : ∀ r' ∈ rest, r'.slideId ≠ id := by
        intro r' hr' hc
        exact hnd.1 (heq ▸ (hc ▸ List.mem_map_of_mem (fun r => r.slideId) hr'))
      rw [applyBatchResults,
        getSlide_applyBatchResults_not_mem isStoryteller rest _ id hnotin, ← heq]
      show getSlide id (applyBatchResult isStoryteller acc ⟨id, true, some img⟩) = _
      unfold applyBatchResult
      simp only [if_true]
      exact getSlide_updateFirstById_self id (genImageUpdate isStoryteller img)
        (fun s => rfl) acc
    · have hidmem : id ∈ rest.map (fun r => r.slideId) :=
        List.mem_map_of_mem (fun r => r.slideId) hmem'
      have hrne : r.slideId ≠ id := by
        intro hc
        exact hnd.1 (hc ▸ hidmem)
      rw [applyBatchResults, ih _ hnd.2 hmem',
        getSlide_applyBatchResult_ne isStoryteller acc r id hrne]

theorem map_slideId_runBatchItem (snapshot : List Slide)
    (oracle : String → GenOutcome) (selected : List String) :
    (selected.map (runBatchItem snapshot oracle)).map (fun r => r.slideId)
      = selected := by
  induction selected with
  | nil => rfl
  | cons a rest ih =>
    rw [List.map_cons, List.map_cons, runBatchItem_slideId, ih]

theorem batchStatus_spec (snapshot : List Slide) (oracle : String → GenOutcome)
    (selected : List String) (k : String)
    (hkfail : oracle k = .err)
    (hok : ∀ id ∈ selected, id ≠ k → ∃ img, oracle id = .ok img)
    (hpresent : ∀ id ∈ selected, (getSlide id snapshot).isSome) :
    batchStatus (selected.map (runBatchItem snapshot oracle))
      = selected.map
          (fun id => (id, if id = k then GenStatus.error else GenStatus.success)) := by
  induction selected with
  | nil => rfl
  | cons a rest ih =>
    have ih' := ih (fun id hm hne => hok id (List.mem_cons_of_mem a hm) hne)
      (fun id hm => hpresent id (List.mem_cons_of_mem a hm))
    by_cases ha : a = k
    · rw [List.map_cons, runBatchItem_err snapshot oracle a (ha ▸ hkfail),
        batchStatus, List.map_cons, List.map_cons, if_pos ha, ← batchStatus, ih']
      rfl
    · obtain ⟨img, ho⟩ := hok a (List.mem_cons_self a rest) ha
      rw [List.map_cons,
        runBatchItem_ok snapshot oracle a img (hpresent a (List.mem_cons_self a rest)) ho,
        batchStatus, List.map_cons, List.map_cons, if_neg ha, ← batchStatus, ih']
      rfl

theorem status_filter_err_nil (rest : List String) (k : String) (h : k ∉ rest) :
    (rest.map
        (fun id => ((id : String), if id = k then GenStatus.error else GenStatus.success))).filter
      (fun p => p.2 = GenStatus.error) = [] := by
  induction rest with
  | nil => rfl
  | cons a t ih =>
    simp only [List.mem_cons, not_or] at h
    rw [List.map_cons, if_neg (fun hc => h.1 hc.symm),
      List.filter_cons_of_neg (by simp), ih h.2]

theorem status_filter_err (selected : List String) (k : String)
    (hnd : selected.Nodup) (hk : k ∈ selected) :
    ((selected.map
        (fun id => ((id : String), if id = k then GenStatus.error else GenStatus.success))).filter
      (fun p => p.2 = GenStatus.error)).map Prod.fst = [k] := by
  induction selected with
  | nil => cases hk
  | cons a rest ih =>
    rw [List.nodup_cons] at hnd
    rcases List.mem_cons.mp hk with heq | hmem
    · rw [List.map_cons, if_pos heq.symm, List.filter_cons_of_pos (by simp),
        status_filter_err_nil rest k (heq ▸ hnd.1), List.map_cons]
      rw [heq]
      rfl
    · have hane : a ≠ k := fun hc => hnd.1 (hc ▸ hmem)
      rw [List.map_cons, if_neg hane, List.filter_cons_of_neg (by simp),
        ih hnd.2 hmem]

/-- C5: Batch independence.  When exactly one member `k` of a batch fails and
every other member's backend attempt succeeds, every member still reaches a
terminal recorded state — the status record is exactly one entry per selected
id, `error` for `k` and `success` for each other —, the batch reports exactly
one failure (namely `k`), and every other member's generated image is written
to its slide in the written-back collection. -/
theorem batchIndependence (isStoryteller : Bool) (snapshot : List Slide)
    (selected : List String) (oracle : String → GenOutcome) (k : String)
    (img : String → String)
    (hsel : selected.Nodup) (hk : k ∈ selected)
    (hkfail : oracle k = .err)
    (hok : ∀ id ∈ selected, id ≠ k → oracle id = .ok (img id))
    (hpresent : ∀ id ∈ selected, (getSlide id snapshot).isSome) :
    (handleBatchGenerateImages isStoryteller snapshot selected oracle).2
        = selected.map
            (fun id => (id, if id = k then GenStatus.error else GenStatus.success)) ∧
    ((handleBatchGenerateImages isStoryteller snapshot selected oracle).2.filter
        (fun p => p.2 = GenStatus.error)).map Prod.fst = [k] ∧
    (∀ id ∈ selected, id ≠ k →
      getSlide id (handleBatchGenerateImages isStoryteller snapshot selected oracle).1
        = (getSlide id snapshot).map (genImageUpdate isStoryteller (img id))) := by
  have hstat : (handleBatchGenerateImages isStoryteller snapshot selected oracle).2
      = selected.map
          (fun id => (id, if id = k then GenStatus.error else GenStatus.success)) :=
    batchStatus_spec snapshot oracle selected k hkfail
      (fun id hm hne => ⟨img id, hok id hm hne⟩) hpresent
  refine ⟨hstat, ?_, ?_⟩
  · rw [hstat]
    exact status_filter_err selected k hsel hk
  · intro id hm hne
    have hnd' : ((selected.map (runBatchItem snapshot oracle)).map
        (fun r => r.slideId)).Nodup := by
      rw [map_slideId_runBatchItem]
      exact hsel
    have hrec : BatchItemResult.mk id true (some (img id))
        ∈ selected.map (runBatchItem snapshot oracle) := by
      have := List.mem_map_of_mem (runBatchItem snapshot oracle) hm
      rwa [runBatchItem_ok snapshot oracle id (img id) (hpresent id hm)
        (hok id hm hne)] at this
    exact getSlide_applyBatchResults_mem isStoryteller
      (selected.map (runBatchItem snapshot oracle)) snapshot id (img id) hnd' hrec

/-- Witness for `batchIndependence`: a three-slide batch where the middle
member fails; the other two slides receive their images and the status record
marks exactly the middle one `error`. -/
theorem batchIndependence_witness :
    (handleBatchGenerateImages false
        [{ id := "a", content := "alpha" }, { id := "b", content := "beta" },
         { id := "c", content := "gamma" }]
        ["a", "b", "c"]
        (fun id => if id = "b" then .err else .ok ("img-" ++ id))).2
      = [("a", GenStatus.success), ("b", GenStatus.error), ("c", GenStatus.success)] := by
  have h := batchIndependence false
    [{ id := "a", content := "alpha" }, { id := "b", content := "beta" },
     { id := "c", content := "gamma" }]
    ["a", "b", "c"]
    (fun id => if id = "b" then .err else .ok ("img-" ++ id))
    "b" (fun id => "img-" ++ id)
    (by decide) (by decide) (by decide)
    (by intro id hm hne
        fin_cases hm <;> simp_all)
    (by intro id hm
        fin_cases hm <;> decide)
  rw [h.1]
  rfl

/-! ## Permission-gated image fallback -/

/-- C3: For each image operation invoked with the Pro model, a failing Pro
attempt triggers exactly one retry — on the Flash model — precisely when the
error is classified as an authorization/permission error (the 403 guard); the
operation's outcome is then whatever the single Flash attempt produced.  For
every other error class the original error propagates unchanged and no Flash
attempt is made (the attempted-model trace stays `[pro]`). -/
theorem imageFallback403Only (att1 att2 att3 : String → ImgResult)
    (e : RequestError)
    (h1 : att1 IMAGE_MODEL_PRO = .fail e)
    (h2 : att2 IMAGE_MODEL_PRO = .fail e)
    (h3 : att3 IMAGE_MODEL_PRO = .fail e) :
    (isAuthError e = true →
      generateSlideImage att1 IMAGE_MODEL_PRO
          = (att1 IMAGE_MODEL_FLASH, [IMAGE_MODEL_PRO, IMAGE_MODEL_FLASH]) ∧
      stylizeImage att2 IMAGE_MODEL_PRO
          = (att2 IMAGE_MODEL_FLASH, [IMAGE_MODEL_PRO, IMAGE_MODEL_FLASH]) ∧
      editImage att3 IMAGE_MODEL_PRO
          = (att3 IMAGE_MODEL_FLASH, [IMAGE_MODEL_PRO, IMAGE_MODEL_FLASH])) ∧
    (isAuthError e = false →
      generateSlideImage att1 IMAGE_MODEL_PRO = (.fail e, [IMAGE_MODEL_PRO]) ∧
      stylizeImage att2 IMAGE_MODEL_PRO = (.fail e, [IMAGE_MODEL_PRO]) ∧
      editImage att3 IMAGE_MODEL_PRO = (.fail e, [IMAGE_MODEL_PRO])) := by
  constructor
  · intro hauth
    refine ⟨?_, ?_, ?_⟩
    · rw [generateSlideImage, h1]
      dsimp only
      rw [if_pos (show IMAGE_MODEL_PRO = IMAGE_MODEL_PRO ∧ isAuthError e = true
        from ⟨rfl, hauth⟩)]
      cases att1 IMAGE_MODEL_FLASH <;> rfl
    · rw [stylizeImage, h2]
      dsimp only
      rw [if_pos (show IMAGE_MODEL_PRO = IMAGE_MODEL_PRO ∧ isAuthError e = true
        from ⟨rfl, hauth⟩)]
      cases att2 IMAGE_MODEL_FLASH <;> rfl
    · rw [editImage, h3]
      dsimp only
      rw [if_pos (show IMAGE_MODEL_PRO = IMAGE_MODEL_PRO ∧ isAuthError e = true
        from ⟨rfl, hauth⟩)]
      cases att3 IMAGE_MODEL_FLASH <;> rfl
  · intro hauth
    have hno : ∀ m : String, ¬ (m = IMAGE_MODEL_PRO ∧ isAuthError e) :=
      fun m hc => by rw [hauth] at hc; exact Bool.false_ne_true hc.2
    refine ⟨?_, ?_, ?_⟩
    · rw [generateSlideImage, h1]
      dsimp only
      rw [if_neg (hno IMAGE_MODEL_PRO)]
    · rw [stylizeImage, h2]
      dsimp only
      rw [if_neg (hno IMAGE_MODEL_PRO)]
    · rw [editImage, h3]
      dsimp only
      rw [if_neg (hno IMAGE_MODEL_PRO)]

/-- Witness for `imageFallback403Only`: a backend that fails the Pro model
with a 403/permission error and succeeds on Flash triggers the single Flash
retry; the same backend failing Pro with a 429-class error propagates it with
no retry. -/
theorem imageFallback403Only_witness :
    (generateSlideImage
        (fun m => if m = IMAGE_MODEL_PRO
          then .fail ⟨.permissionDenied, false⟩ else .ok "flash-img")
        IMAGE_MODEL_PRO
      = (.ok "flash-img", [IMAGE_MODEL_PRO, IMAGE_MODEL_FLASH])) ∧
    (generateSlideImage
        (fun m => if m = IMAGE_MODEL_PRO
          then .fail ⟨.code 429, false⟩ else .ok "flash-img")
        IMAGE_MODEL_PRO
      = (.fail ⟨.code 429, false⟩, [IMAGE_MODEL_PRO])) := by
  constructor
  · have h := imageFallback403Only
      (fun m => if m = IMAGE_MODEL_PRO
        then .fail ⟨.permissionDenied, false⟩ else .ok "flash-img")
      (fun m => if m = IMAGE_MODEL_PRO
        then .fail ⟨.permissionDenied, false⟩ else .ok "flash-img")
      (fun m => if m = IMAGE_MODEL_PRO
        then .fail ⟨.permissionDenied, false⟩ else .ok "flash-img")
      ⟨.permissionDenied, false⟩ (by decide) (by decide) (by decide)
    rw [(h.1 (by decide)).1]
    decide
  · have h := imageFallback403Only
      (fun m => if m = IMAGE_MODEL_PRO
        then .fail ⟨.code 429, false⟩ else .ok "flash-img")
      (fun m => if m = IMAGE_MODEL_PRO
        then .fail ⟨.code 429, false⟩ else .ok "flash-img")
      (fun m => if m = IMAGE_MODEL_PRO
        then .fail ⟨.code 429, false⟩ else .ok "flash-img")
      ⟨.code 429, false⟩ (by decide) (by decide) (by decide)
    exact (h.2 (by decide)).1

/-! ## Unconditional text-generation fallback chain -/

theorem gcc_ok {α : Type} (att : String → TextResult α) (m : String) (v : α)
    (h : att m = .ok v) : generateCarouselContent att m = (.ok v, [m]) := by
  rw [generateCarouselContent.eq_def, h]

theorem gcc_fail_pro {α : Type} (att : String → TextResult α) (e : RequestError)
    (h : att TEXT_MODEL_PRO = .fail e) :
    generateCarouselContent att TEXT_MODEL_PRO
      = ((generateCarouselContent att TEXT_MODEL_PRO_2_5).1,
         TEXT_MODEL_PRO :: (generateCarouselContent att TEXT_MODEL_PRO_2_5).2) := by
  rw [generateCarouselContent.eq_def, h]
  dsimp only
  rw [dif_pos rfl]

theorem gcc_fail_pro25 {α : Type} (att : String → TextResult α) (e : RequestError)
    (h : att TEXT_MODEL_PRO_2_5 = .fail e) :
    generateCarouselContent att TEXT_MODEL_PRO_2_5
      = ((generateCarouselContent att TEXT_MODEL_FLASH).1,
         TEXT_MODEL_PRO_2_5 :: (generateCarouselContent att TEXT_MODEL_FLASH).2) := by
  rw [generateCarouselContent.eq_def, h]
  dsimp only
  rw [dif_neg (by decide), dif_pos rfl]

theorem gcc_fail_flash {α : Type} (att : String → TextResult α) (e : RequestError)
    (h : att TEXT_MODEL_FLASH = .fail e) :
    generateCarouselContent att TEXT_MODEL_FLASH = (.fail e, [TEXT_MODEL_FLASH]) := by
  rw [generateCarouselContent.eq_def, h]
  dsimp only
  rw [dif_neg (by decide), dif_neg (by decide)]

theorem rcc_ok {α : Type} (att : String → TextResult α) (m : String) (v : α)
    (h : att m = .ok v) : refineCarouselContent att m = (.ok v, [m]) := by
  rw [refineCarouselContent.eq_def, h]

theorem rcc_fail_pro {α : Type} (att : String → TextResult α) (e : RequestError)
    (h : att TEXT_MODEL_PRO = .fail e) :
    refineCarouselContent att TEXT_MODEL_PRO
      = ((refineCarouselContent att TEXT_MODEL_PRO_2_5).1,
         TEXT_MODEL_PRO :: (refineCarouselContent att TEXT_MODEL_PRO_2_5).2) := by
  rw [refineCarouselContent.eq_def, h]
  dsimp only
  rw [dif_pos rfl]

theorem rcc_fail_pro25 {α : Type} (att : String → TextResult α) (e : RequestError)
    (h : att TEXT_MODEL_PRO_2_5 = .fail e) :
    refineCarouselContent att TEXT_MODEL_PRO_2_5
      = ((refineCarouselContent att TEXT_MODEL_FLASH).1,
         TEXT_MODEL_PRO_2_5 :: (refineCarouselContent att TEXT_MODEL_FLASH).2) := by
  rw [refineCarouselContent.eq_def, h]
  dsimp only
  rw [dif_neg (by decide), dif_pos rfl]

theorem rcc_fail_flash {α : Type} (att : String → TextResult α) (e : RequestError)
    (h : att TEXT_MODEL_FLASH = .fail e) :
    refineCarouselContent att TEXT_MODEL_FLASH = (.fail e, [TEXT_MODEL_FLASH]) := by
  rw [refineCarouselContent.eq_def, h]
  dsimp only
  rw [dif_neg (by decide), dif_neg (by decide)]

/-- C4: Unconditional chain for text generation and refinement.  Whatever the
error at the top tier, the call is retried on the mid tier; whatever the error
there, on the fast tier; and when all three tiers fail, the error of the last
attempted model (`flash`) is re-raised verbatim to the caller.  The
attempted-model trace records each retry. -/
theorem textChainFallsBackOnAnyError {α : Type}
    (att attR : String → TextResult α) (e1 e2 e3 : RequestError) (v w : α) :
    ((att TEXT_MODEL_PRO = .fail e1 → att TEXT_MODEL_PRO_2_5 = .ok v →
      generateCarouselContent att TEXT_MODEL_PRO
        = (.ok v, [TEXT_MODEL_PRO, TEXT_MODEL_PRO_2_5])) ∧
     (att TEXT_MODEL_PRO = .fail e1 → att TEXT_MODEL_PRO_2_5 = .fail e2 →
      att TEXT_MODEL_FLASH = .ok v →
      generateCarouselContent att TEXT_MODEL_PRO
        = (.ok v, [TEXT_MODEL_PRO, TEXT_MODEL_PRO_2_5, TEXT_MODEL_FLASH])) ∧
     (att TEXT_MODEL_PRO = .fail e1 → att TEXT_MODEL_PRO_2_5 = .fail e2 →
      att TEXT_MODEL_FLASH = .fail e3 →
      generateCarouselContent att TEXT_MODEL_PRO
        = (.fail e3, [TEXT_MODEL_PRO, TEXT_MODEL_PRO_2_5, TEXT_MODEL_FLASH]))) ∧
    ((attR TEXT_MODEL_PRO = .fail e1 → attR TEXT_MODEL_PRO_2_5 = .ok w →
      refineCarouselContent attR TEXT_MODEL_PRO
        = (.ok w, [TEXT_MODEL_PRO, TEXT_MODEL_PRO_2_5])) ∧
     (attR TEXT_MODEL_PRO = .fail e1 → attR TEXT_MODEL_PRO_2_5 = .fail e2 →
      attR TEXT_MODEL_FLASH = .ok w →
      refineCarouselContent attR TEXT_MODEL_PRO
        = (.ok w, [TEXT_MODEL_PRO, TEXT_MODEL_PRO_2_5, TEXT_MODEL_FLASH])) ∧
     (attR TEXT_MODEL_PRO = .fail e1 → attR TEXT_MODEL_PRO_2_5 = .fail e2 →
      attR TEXT_MODEL_FLASH = .fail e3 →
      refineCarouselContent attR TEXT_MODEL_PRO
        = (.fail e3, [TEXT_MODEL_PRO, TEXT_MODEL_PRO_2_5, TEXT_MODEL_FLASH]))) := by
  refine ⟨⟨?_, ?_, ?_⟩, ⟨?_, ?_, ?_⟩⟩
  · intro h1 h2
    rw [gcc_fail_pro att e1 h1, gcc_ok att TEXT_MODEL_PRO_2_5 v h2]
  · intro h1 h2 h3
    rw [gcc_fail_pro att e1 h1, gcc_fail_pro25 att e2 h2,
      gcc_ok att TEXT_MODEL_FLASH v h3]
  · intro h1 h2 h3
    rw [gcc_fail_pro att e1 h1, gcc_fail_pro25 att e2 h2,
      gcc_fail_flash att e3 h3]
  · intro h1 h2
    rw [rcc_fail_pro attR e1 h1, rcc_ok attR TEXT_MODEL_PRO_2_5 w h2]
  · intro h1 h2 h3
    rw [rcc_fail_pro attR e1 h1, rcc_fail_pro25 attR e2 h2,
      rcc_ok attR TEXT_MODEL_FLASH w h3]
  · intro h1 h2 h3
    rw [rcc_fail_pro attR e1 h1, rcc_fail_pro25 attR e2 h2,
      rcc_fail_flash attR e3 h3]

/-- Witness for `textChainFallsBackOnAnyError`: a backend failing every tier
re-raises the fast tier's error after attempting all three models. -/
theorem textChainFallsBackOnAnyError_witness :
    generateCarouselContent
        (fun m => if m = TEXT_MODEL_FLASH
          then (.fail ⟨.code 500, false⟩ : TextResult Nat)
          else .fail ⟨.code 429, false⟩)
        TEXT_MODEL_PRO
      = (.fail ⟨.code 500, false⟩,
         [TEXT_MODEL_PRO, TEXT_MODEL_PRO_2_5, TEXT_MODEL_FLASH]) := by
  have h := textChainFallsBackOnAnyError
    (fun m => if m = TEXT_MODEL_FLASH
      then (.fail ⟨.code 500, false⟩ : TextResult Nat)
      else .fail ⟨.code 429, false⟩)
    (fun m => if m = TEXT_MODEL_FLASH
      then (.fail ⟨.code 500, false⟩ : TextResult Nat)
      else .fail ⟨.code 429, false⟩)
    ⟨.code 429, false⟩ ⟨.code 429, false⟩ ⟨.code 500, false⟩ 0 0
  exact h.1.2.2 (by decide) (by decide) (by decide)

/-! ## Export pipeline -/

theorem waitForImagesTime_le (assets : List (Option Nat)) :
    waitForImagesTime assets ≤ 3000 := by
  unfold waitForImagesTime
  by_cases h : assets.isEmpty
  · rw [if_pos h]
    exact Nat.zero_le _
  · rw [if_neg h]
    cases allSettledTime assets with
    | none => exact Nat.le_refl _
    | some t => exact Nat.min_le_right t 3000

/-- C8: the pre-capture asset wait always resolves within the 3000ms safety
timeout — even when some asset never fires a load or error event
(`settleTime = none`) — and the capture that follows still produces the
renderer's snapshot. -/
theorem assetWaitBounded (assets : List (Option Nat)) (render : Option String) :
    waitForImagesTime assets ≤ 3000 ∧
    (captureSlide assets render).1 ≤ 3000 ∧
    (∀ b, render = some b → (captureSlide assets render).2 = some b) := by
  refine ⟨waitForImagesTime_le assets, waitForImagesTime_le assets, ?_⟩
  intro b hb
  rw [captureSlide, hb]

/-- Witness for `assetWaitBounded`: one asset never settles and another only
settles at 5000ms, yet the wait resolves at the 3000ms ceiling and the capture
still yields the snapshot. -/
theorem assetWaitBounded_witness :
    waitForImagesTime [none, some 5000, some 10] ≤ 3000 ∧
    (captureSlide [none, some 5000, some 10] (some "snapshot")).1 ≤ 3000 ∧
    (captureSlide [none, some 5000, some 10] (some "snapshot")).2
      = some "snapshot" := by
  have h := assetWaitBounded [none, some 5000, some 10] (some "snapshot")
  exact ⟨h.1, h.2.1, h.2.2 "snapshot" rfl⟩

/-- C9: full-sequence export restores whichever slide was active before the
sequence began, for every starting active slide, every latency assignment and
every capture behaviour. -/
theorem exportRestoresActiveSlide (slides : List Slide) (activeSlideId : String)
    (latency : String → Nat) (capture : String → Option String) :
    (handleDownloadCarousel slides activeSlideId latency capture).finalActiveId
      = activeSlideId := rfl

theorem exportLoop_archive (latency : String → Nat)
    (capture : String → Option String) (l : List (Nat × Slide)) (clock : Nat)
    (act : String) (archive : List (String × String)) (events : List CaptureEvent) :
    (exportLoop latency capture l (clock, act, archive, events)).2.2.1
      = archive ++ l.filterMap
          (fun p => (capture p.2.id).map (fun b => (slideFileName (p.1 + 1), b))) := by
  induction l generalizing clock act archive events with
  | nil => simp [exportLoop]
  | cons p rest ih =>
    obtain ⟨i, s⟩ := p
    rw [exportLoop]
    cases hc : capture s.id with
    | none =>
      rw [List.filterMap_cons]
      dsimp only
      rw [hc]
      exact ih ..
    | some b =>
      rw [List.filterMap_cons]
      dsimp only
      rw [hc]
      dsimp only [Option.map_some']
      rw [ih]
      simp

theorem exportLoop_events_map (latency : String → Nat)
    (capture : String → Option String) (l : List (Nat × Slide)) (clock : Nat)
    (act : String) (archive : List (String × String)) (events : List CaptureEvent) :
    (exportLoop latency capture l (clock, act, archive, events)).2.2.2.map
        (fun ev => ev.slideId)
      = events.map (fun ev => ev.slideId) ++ l.map (fun p => p.2.id) := by
  induction l generalizing clock act archive events with
  | nil => simp [exportLoop]
  | cons p rest ih =>
    obtain ⟨i, s⟩ := p
    rw [exportLoop]
    cases hc : capture s.id <;>
      · dsimp only
        rw [ih]
        simp

theorem exportLoop_events_seq (latency : String → Nat)
    (capture : String → Option String) (l : List (Nat × Slide)) (clock : Nat)
    (act : String) (archive : List (String × String)) (events : List CaptureEvent)
    (hend : ∀ ev ∈ events, ev.endTime ≤ clock)
    (hpw : events.Pairwise (fun x y => x.endTime ≤ y.startTime)) :
    (exportLoop latency capture l (clock, act, archive, events)).2.2.2.Pairwise
      (fun x y => x.endTime ≤ y.startTime) := by
  induction l generalizing clock act archive events with
  | nil => exact hpw
  | cons p rest ih =>
    obtain ⟨i, s⟩ := p
    rw [exportLoop]
    cases hc : capture s.id <;>
      · dsimp only
        refine ih _ _ _ _ ?_ ?_
        · intro ev hev
          rcases List.mem_append.mp hev with hl | hr
          · exact le_trans (hend ev hl) (by omega)
          · rcases List.mem_singleton.mp hr with rfl
            exact Nat.le_refl _
        · rw [List.pairwise_append]
          refine ⟨hpw, List.pairwise_singleton _ _, ?_⟩
          intro x hx y hy
          rcases List.mem_singleton.mp hy with rfl
          exact le_trans (hend x hx) (by show clock ≤ clock + 300; omega)

theorem mem_of_mem_enumFrom {α : Type} {l : List α} {n : Nat} {p : Nat × α}
    (h : p ∈ List.enumFrom n l) : p.2 ∈ l := by
  induction l generalizing n with
  | nil => cases h
  | cons a t ih =>
    rcases List.mem_cons.mp h with heq | hmem
    · rw [heq]
      exact List.mem_cons_self a t
    · exact List.mem_cons_of_mem a (ih hmem)

theorem filterMap_congr_map {α β : Type} (f : α → Option β) (g : α → β)
    (l : List α) (h : ∀ a ∈ l, f a = some (g a)) : l.filterMap f = l.map g := by
  induction l with
  | nil => rfl
  | cons a t ih =>
    rw [List.filterMap_cons, h a (List.mem_cons_self a t), List.map_cons,
      ih (fun a ha => h a (List.mem_cons_of_mem _ ha))]

theorem enumFrom_map_snd_id {l : List Slide} {n : Nat} :
    (List.enumFrom n l).map (fun p => p.2.id) = l.map (fun s => s.id) := by
  induction l generalizing n with
  | nil => rfl
  | cons a t ih => rw [List.enumFrom, List.map_cons, List.map_cons, ih]

/-- C6: Export ordering.  When every slide's capture succeeds, the archive of
a full-sequence export lists, in order, one `slide-(i+1).png` entry per slide,
the i-th entry holding the i-th slide's capture — the display order at the
start of the export.  The archive does not depend on the per-slide capture
latency assignment, and the captures run strictly sequentially: the recorded
capture intervals are pairwise ordered (each capture ends before any later one
starts) and follow the slide display order. -/
theorem exportOrdering (slides : List Slide) (activeSlideId : String)
    (latency : String → Nat) (capture : String → Option String)
    (blob : String → String)
    (hcap : ∀ s ∈ slides, capture s.id = some (blob s.id)) :
    (handleDownloadCarousel slides activeSlideId latency capture).archive
        = slides.enum.map (fun p => (slideFileName (p.1 + 1), blob p.2.id)) ∧
    (∀ latency' : String → Nat,
      (handleDownloadCarousel slides activeSlideId latency' capture).archive
        = (handleDownloadCarousel slides activeSlideId latency capture).archive) ∧
    (handleDownloadCarousel slides activeSlideId latency capture).events.Pairwise
      (fun x y => x.endTime ≤ y.startTime) ∧
    (handleDownloadCarousel slides activeSlideId latency capture).events.map
        (fun ev => ev.slideId)
      = slides.map (fun s => s.id) := by
  have harch : ∀ lat : String → Nat,
      (handleDownloadCarousel slides activeSlideId lat capture).archive
        = slides.enum.filterMap
            (fun p => (capture p.2.id).map (fun b => (slideFileName (p.1 + 1), b))) := by
    intro lat
    show (exportLoop lat capture slides.enum (0, activeSlideId, [], [])).2.2.1 = _
    rw [exportLoop_archive]
    rfl
  have hmap : slides.enum.filterMap
      (fun p => (capture p.2.id).map (fun b => (slideFileName (p.1 + 1), b)))
        = slides.enum.map (fun p => (slideFileName (p.1 + 1), blob p.2.id)) := by
    refine filterMap_congr_map _ _ _ ?_
    intro p hp
    rw [hcap p.2 (mem_of_mem_enumFrom hp), Option.map_some']
  refine ⟨by rw [harch, hmap], fun lat' => by rw [harch, harch], ?_, ?_⟩
  · exact exportLoop_events_seq latency capture slides.enum 0 activeSlideId [] []
      (fun ev hev => absurd hev (List.not_mem_nil ev)) List.Pairwise.nil
  · show (exportLoop latency capture slides.enum (0, activeSlideId, [], [])).2.2.2.map
        (fun ev => ev.slideId) = _
    rw [exportLoop_events_map]
    exact enumFrom_map_snd_id

/-- Witness for `exportOrdering`: three slides with deliberately reversed
capture latencies (`c` fastest, `a` slowest) still archive in display order
`a`, `b`, `c`. -/
theorem exportOrdering_witness :
    (handleDownloadCarousel
        [{ id := "a", content := "alpha" }, { id := "b", content := "beta" },
         { id := "c", content := "gamma" }] "b"
        (fun id => if id = "a" then 900 else if id = "b" then 600 else 5)
        (fun id => some ("img-" ++ id))).archive
      = [(slideFileName 1, "img-a"), (slideFileName 2, "img-b"),
         (slideFileName 3, "img-c")] := by
  have h := exportOrdering
    [{ id := "a", content := "alpha" }, { id := "b", content := "beta" },
     { id := "c", content := "gamma" }] "b"
    (fun id => if id = "a" then 900 else if id = "b" then 600 else 5)
    (fun id => some ("img-" ++ id))
    (fun id => "img-" ++ id)
    (by intro s hs; rfl)
  rw [h.1]
  rfl

/-- C7: Export partial failure.  The archive of a full-sequence export holds
exactly one entry per slide whose capture returned a blob, in display order —
a slide whose capture failed (returned `null`) contributes no entry and does
not disturb its neighbours — and the packaged download is produced
unconditionally: the loop runs every slide to completion and then packages
whatever was collected. -/
theorem exportSkipsFailedCapture (slides : List Slide) (activeSlideId : String)
    (latency : String → Nat) (capture : String → Option String) :
    (handleDownloadCarousel slides activeSlideId latency capture).archive
        = slides.enum.filterMap
            (fun p => (capture p.2.id).map (fun b => (slideFileName (p.1 + 1), b))) ∧
    (handleDownloadCarousel slides activeSlideId latency capture).packaged = true := by
  constructor
  · show (exportLoop latency capture slides.enum (0, activeSlideId, [], [])).2.2.1 = _
    rw [exportLoop_archive]
    rfl
  · rfl
